import Mathlib

/-!
Verification of the quaternion algebra module and the task lifecycle /
metrics manager of the `amms` repository, against its design document.

The quaternion operations are shallowly embedded over the real numbers
(the source works in `f64`); the task manager is embedded as explicit
state passing over an association-list task table, with each mutex
acquisition modelled by a boolean oracle (a `false` oracle is a poisoned
lock, the only failure source the code has).
-/

namespace Amms

/-- Quaternion value type; field layout as used throughout
`core/geometric_quaternion_core.rs` (`Self { w, x, y, z }`). -/
@[ext]
structure Quaternion where
  w : ℝ
  x : ℝ
  y : ℝ
  z : ℝ

noncomputable section

namespace Quaternion

/-- `Quaternion::identity`. -/
def identity : Quaternion := ⟨1, 0, 0, 0⟩

/-- `Quaternion::multiply` (Hamilton product). -/
def multiply (a b : Quaternion) : Quaternion :=
  ⟨a.w * b.w - a.x * b.x - a.y * b.y - a.z * b.z,
   a.w * b.x + a.x * b.w + a.y * b.z - a.z * b.y,
   a.w * b.y - a.x * b.z + a.y * b.w + a.z * b.x,
   a.w * b.z + a.x * b.y - a.y * b.x + a.z * b.w⟩

/-- `Quaternion::conjugate`. -/
def conjugate (q : Quaternion) : Quaternion := ⟨q.w, -q.x, -q.y, -q.z⟩

/-- `Quaternion::norm`. -/
def norm (q : Quaternion) : ℝ :=
  Real.sqrt (q.w * q.w + q.x * q.x + q.y * q.y + q.z * q.z)

/-- `Quaternion::normalize`: identity when the norm is below `1e-10`,
otherwise componentwise division by the norm. -/
def normalize (q : Quaternion) : Quaternion :=
  if q.norm < 1e-10 then identity
  else ⟨q.w / q.norm, q.x / q.norm, q.y / q.norm, q.z / q.norm⟩

/-- `Quaternion::from_axis_angle`: identity when the axis norm is below
`1e-10`, otherwise the rotor `(cos(θ/2), sin(θ/2)·axis/‖axis‖)`. -/
def from_axis_angle (axis : ℝ × ℝ × ℝ) (angle_rad : ℝ) : Quaternion :=
  if Real.sqrt (axis.1 * axis.1 + axis.2.1 * axis.2.1 + axis.2.2 * axis.2.2) < 1e-10 then
    identity
  else
    ⟨Real.cos (angle_rad / 2),
     axis.1 * (Real.sin (angle_rad / 2) /
       Real.sqrt (axis.1 * axis.1 + axis.2.1 * axis.2.1 + axis.2.2 * axis.2.2)),
     axis.2.1 * (Real.sin (angle_rad / 2) /
       Real.sqrt (axis.1 * axis.1 + axis.2.1 * axis.2.1 + axis.2.2 * axis.2.2)),
     axis.2.2 * (Real.sin (angle_rad / 2) /
       Real.sqrt (axis.1 * axis.1 + axis.2.1 * axis.2.1 + axis.2.2 * axis.2.2))⟩

/-- The dot product computed at the head of `Quaternion::slerp`. -/
def dotQ (a b : Quaternion) : ℝ := a.w * b.w + a.x * b.x + a.y * b.y + a.z * b.z

/-- Componentwise negation used by slerp's hemisphere correction. -/
def negQ (b : Quaternion) : Quaternion := ⟨-b.w, -b.x, -b.y, -b.z⟩

/-- Coefficient `s1` of slerp's great-circle branch, exactly as the source
computes it: `(theta_0 - theta).cos() - dot * sin_theta / sin_theta_0`
with `theta_0 = acos(dot)` and `theta = theta_0 * t`. -/
def slerpS1 (dot t : ℝ) : ℝ :=
  Real.cos (Real.arccos dot - Real.arccos dot * t) -
    dot * Real.sin (Real.arccos dot * t) / Real.sin (Real.arccos dot)

/-- Coefficient `s2` of slerp's great-circle branch:
`sin_theta / sin_theta_0`. -/
def slerpS2 (dot t : ℝ) : ℝ :=
  Real.sin (Real.arccos dot * t) / Real.sin (Real.arccos dot)

/-- Body of `Quaternion::slerp` after the hemisphere correction: `o` is the
(possibly sign-flipped) second operand and `dot` the corrected dot product.
`dot > 0.9995` takes the lerp-then-normalize branch, otherwise the
great-circle branch with coefficients `slerpS1`/`slerpS2`. -/
def slerpMain (a o : Quaternion) (dot t : ℝ) : Quaternion :=
  if dot > 0.9995 then
    normalize ⟨a.w + t * (o.w - a.w), a.x + t * (o.x - a.x),
               a.y + t * (o.y - a.y), a.z + t * (o.z - a.z)⟩
  else
    ⟨a.w * slerpS1 dot t + o.w * slerpS2 dot t,
     a.x * slerpS1 dot t + o.x * slerpS2 dot t,
     a.y * slerpS1 dot t + o.y * slerpS2 dot t,
     a.z * slerpS1 dot t + o.z * slerpS2 dot t⟩

/-- `Quaternion::slerp`: when the initial dot product is negative the second
operand and the dot product are sign-flipped before the main computation. -/
def slerp (a b : Quaternion) (t : ℝ) : Quaternion :=
  if dotQ a b < 0 then slerpMain a (negQ b) (-dotQ a b) t
  else slerpMain a b (dotQ a b) t

end Quaternion

/-- Componentwise approximate equality of quaternions with tolerance `eps`. -/
def approxQ (p q : Quaternion) (eps : ℝ) : Prop :=
  |p.w - q.w| ≤ eps ∧ |p.x - q.x| ≤ eps ∧ |p.y - q.y| ≤ eps ∧ |p.z - q.z| ≤ eps

end

/-- C8: `multiply(identity, q) = q` and `multiply(q, identity) = q`
for every quaternion `q`, unit or not. -/
theorem multiply_identity_both (q : Quaternion) :
    Quaternion.multiply Quaternion.identity q = q ∧
    Quaternion.multiply q Quaternion.identity = q := by
  constructor <;> ext <;>
    simp [Quaternion.multiply, Quaternion.identity]

/-- C8 witness: the identity laws at the concrete quaternion `(5, 2, 3, 4)`. -/
theorem multiply_identity_both_witness :
    Quaternion.multiply Quaternion.identity ⟨5, 2, 3, 4⟩ = ⟨5, 2, 3, 4⟩ ∧
    Quaternion.multiply ⟨5, 2, 3, 4⟩ Quaternion.identity = ⟨5, 2, 3, 4⟩ :=
  multiply_identity_both ⟨5, 2, 3, 4⟩

/-- C7: `normalize` returns exactly the identity quaternion when the norm is
below `1e-10` (no division happens); when the norm is at least `1e-10` the
normalized quaternion has norm exactly 1 (hence approximately 1); and
`from_axis_angle` returns the identity whenever the axis norm is below
`1e-10`. -/
theorem normalize_spec :
    (∀ q : Quaternion, q.norm < 1e-10 → q.normalize = Quaternion.identity) ∧
    (∀ q : Quaternion, 1e-10 ≤ q.norm → q.normalize.norm = 1) ∧
    (∀ (axis : ℝ × ℝ × ℝ) (angle : ℝ),
      Real.sqrt (axis.1 * axis.1 + axis.2.1 * axis.2.1 + axis.2.2 * axis.2.2) < 1e-10 →
      Quaternion.from_axis_angle axis angle = Quaternion.identity) := by
  refine ⟨fun q h => ?_, fun q h => ?_, fun axis angle h => ?_⟩
  · simp [Quaternion.normalize, h]
  · have hpos : (0 : ℝ) < q.norm := lt_of_lt_of_le (by norm_num) h
    have hne : q.norm ≠ 0 := ne_of_gt hpos
    have hsq : q.norm * q.norm = q.w * q.w + q.x * q.x + q.y * q.y + q.z * q.z := by
      have hnn : (0 : ℝ) ≤ q.w * q.w + q.x * q.x + q.y * q.y + q.z * q.z :=
        add_nonneg (add_nonneg (add_nonneg (mul_self_nonneg q.w) (mul_self_nonneg q.x))
          (mul_self_nonneg q.y)) (mul_self_nonneg q.z)
      simpa [Quaternion.norm] using Real.mul_self_sqrt hnn
    have hif : q.normalize = ⟨q.w / q.norm, q.x / q.norm, q.y / q.norm, q.z / q.norm⟩ := by
      simp [Quaternion.normalize, not_lt.2 h]
    rw [hif]
    show Real.sqrt _ = 1
    have harg : q.w / q.norm * (q.w / q.norm) + q.x / q.norm * (q.x / q.norm) +
        q.y / q.norm * (q.y / q.norm) + q.z / q.norm * (q.z / q.norm) = 1 := by
      rw [div_mul_div_comm, div_mul_div_comm, div_mul_div_comm, div_mul_div_comm,
        div_add_div_same, div_add_div_same, div_add_div_same, ← hsq]
      exact div_self (mul_ne_zero hne hne)
    rw [harg, Real.sqrt_one]
  · simp [Quaternion.from_axis_angle, h]

/-- C7 witness: the zero quaternion normalizes to the identity, `(3,0,0,0)`
normalizes to a quaternion of norm 1, and a zero axis gives the identity. -/
theorem normalize_spec_witness :
    Quaternion.normalize ⟨0, 0, 0, 0⟩ = Quaternion.identity ∧
    Quaternion.norm (Quaternion.normalize ⟨3, 0, 0, 0⟩) = 1 ∧
    Quaternion.from_axis_angle (0, 0, 0) 1 = Quaternion.identity := by
  have h9 : Real.sqrt 9 = 3 := by
    rw [show (9 : ℝ) = 3 ^ 2 by norm_num]
    exact Real.sqrt_sq (by norm_num)
  refine ⟨normalize_spec.1 _ ?_, normalize_spec.2.1 _ ?_, normalize_spec.2.2 _ _ ?_⟩
  · show Real.sqrt _ < _
    rw [show (0 : ℝ) * 0 + 0 * 0 + 0 * 0 + 0 * 0 = 0 by ring, Real.sqrt_zero]
    norm_num
  · show _ ≤ Real.sqrt _
    rw [show (3 : ℝ) * 3 + 0 * 0 + 0 * 0 + 0 * 0 = 9 by ring, h9]
    norm_num
  · show Real.sqrt ((0 : ℝ) * 0 + 0 * 0 + 0 * 0) < _
    rw [show (0 : ℝ) * 0 + 0 * 0 + 0 * 0 = 0 by ring, Real.sqrt_zero]
    norm_num

/-- At `t = 0` the source's great-circle coefficient is
`cos(theta_0) - 0 = dot` (standard slerp would give `cos(0) = 1`); at
`dot = 0` that value is `0`. -/
theorem slerpS1_zero_eval : Quaternion.slerpS1 0 0 = 0 := by
  unfold Quaternion.slerpS1
  rw [mul_zero, sub_zero, Real.cos_arccos (by norm_num) (by norm_num)]
  simp

theorem slerpS2_zero_eval : Quaternion.slerpS2 0 0 = 0 := by
  unfold Quaternion.slerpS2
  rw [mul_zero]
  simp

/-- C1: at the concrete unit quaternions `a = (1,0,0,0)`, `b = (0,1,0,0)`
(dot product 0, so the great-circle branch runs and no hemisphere flip
happens), the code's `slerp(a, b, 0)` is the zero quaternion rather than
approximately `a`: every component of `a` is missed by a full `1` on the
`w` axis, far beyond any reasonable tolerance. -/
theorem slerp_boundary_failing_input :
    Quaternion.slerp ⟨1, 0, 0, 0⟩ ⟨0, 1, 0, 0⟩ 0 = ⟨0, 0, 0, 0⟩ ∧
    ¬ approxQ (Quaternion.slerp ⟨1, 0, 0, 0⟩ ⟨0, 1, 0, 0⟩ 0) ⟨1, 0, 0, 0⟩ (1 / 2) := by
  have hdot : Quaternion.dotQ ⟨1, 0, 0, 0⟩ ⟨0, 1, 0, 0⟩ = 0 := by
    norm_num [Quaternion.dotQ]
  have hmain : Quaternion.slerp ⟨1, 0, 0, 0⟩ ⟨0, 1, 0, 0⟩ 0 = ⟨0, 0, 0, 0⟩ := by
    unfold Quaternion.slerp
    rw [hdot, if_neg (by norm_num : ¬ (0 : ℝ) < 0)]
    unfold Quaternion.slerpMain
    rw [if_neg (by norm_num : ¬ (0 : ℝ) > 0.9995), slerpS1_zero_eval, slerpS2_zero_eval]
    ext <;> simp
  refine ⟨hmain, ?_⟩
  rw [hmain]
  simp only [approxQ, not_and]
  intro hw
  exfalso
  rw [show |(0 : ℝ) - 1| = 1 by rw [zero_sub, abs_neg, abs_one]] at hw
  norm_num at hw

/-! ## Operator-label normalization (`api/llm_gateway.rs`) -/

/-- Whitespace test used to model Rust's `str::trim` on the ASCII labels
this gateway handles. -/
def isWsChar (c : Char) : Bool := c == ' ' || c == '\t' || c == '\n' || c == '\r'

/-- Trim whitespace from both ends of a character list (`str::trim`). -/
def trimChars (l : List Char) : List Char :=
  ((l.dropWhile isWsChar).reverse.dropWhile isWsChar).reverse

/-- Does the second list start with the first? -/
def startsWithL : List Char → List Char → Bool
  | [], _ => true
  | _ :: _, [] => false
  | n :: ns, h :: hs => n == h && startsWithL ns hs

/-- Does the list have `nee` as a contiguous sublist (`str::contains`)? -/
def hasSubL (nee : List Char) : List Char → Bool
  | [] => startsWithL nee []
  | c :: cs => startsWithL nee (c :: cs) || hasSubL nee cs

/-- `hay.contains(nee)` on strings. -/
def strContains (hay nee : String) : Bool := hasSubL nee.data hay.data

/-- `str::to_lowercase`, characterwise (the gateway's labels are ASCII). -/
def strLower (s : String) : String := String.mk (s.data.map Char.toLower)

/-- `raw.trim().to_lowercase()` as computed at the head of
`map_llm_response_to_operator`. -/
def loweredLabel (raw : String) : String := strLower (String.mk (trimChars raw.data))

/-- `map_llm_response_to_operator` from `api/llm_gateway.rs`: substring
classification first, then exact-name matching, then the default. -/
def map_llm_response_to_operator (raw : String) : String :=
  if strContains (loweredLabel raw) "zitter" || strContains (loweredLabel raw) "oscillation" then
    "Zitterbewegung"
  else if strContains (loweredLabel raw) "stabilize" ||
      strContains (loweredLabel raw) "derivation" then
    "GeometricDerivation"
  else if strContains (loweredLabel raw) "semantic" ||
      strContains (loweredLabel raw) "anchor" then
    "SemanticSynthesis"
  else if strContains (loweredLabel raw) "coherence" ||
      strContains (loweredLabel raw) "optimize" ||
      strContains (loweredLabel raw) "quaternion" then
    "QuaternionRotation"
  else if loweredLabel raw = "quaternionrotation" ∨ loweredLabel raw = "zitterbewegung" ∨
      loweredLabel raw = "geometricderivation" ∨ loweredLabel raw = "semanticsynthesis" then
    if loweredLabel raw = "quaternionrotation" then "QuaternionRotation"
    else if loweredLabel raw = "zitterbewegung" then "Zitterbewegung"
    else if loweredLabel raw = "geometricderivation" then "GeometricDerivation"
    else if loweredLabel raw = "semanticsynthesis" then "SemanticSynthesis"
    else "QuaternionRotation"
  else "QuaternionRotation"

/-- Normalization as the spec words it: the four substring rules in order,
then case-insensitive exact matches of the enum names map to themselves,
then the default. Written from the spec for comparison with
`map_llm_response_to_operator`. -/
def specNormalizeOperator (raw : String) : String :=
  if strContains (loweredLabel raw) "zitter" || strContains (loweredLabel raw) "oscillation" then
    "Zitterbewegung"
  else if strContains (loweredLabel raw) "stabilize" ||
      strContains (loweredLabel raw) "derivation" then
    "GeometricDerivation"
  else if strContains (loweredLabel raw) "semantic" ||
      strContains (loweredLabel raw) "anchor" then
    "SemanticSynthesis"
  else if strContains (loweredLabel raw) "coherence" ||
      strContains (loweredLabel raw) "optimize" ||
      strContains (loweredLabel raw) "quaternion" then
    "QuaternionRotation"
  else if loweredLabel raw = "quaternionrotation" then "QuaternionRotation"
  else if loweredLabel raw = "zitterbewegung" then "Zitterbewegung"
  else if loweredLabel raw = "geometricderivation" then "GeometricDerivation"
  else if loweredLabel raw = "semanticsynthesis" then "SemanticSynthesis"
  else "QuaternionRotation"

/-- C6: operator-label normalization is total with no error outcome — the
code agrees with the spec's rule list (substring rules in priority order,
case-insensitive exact matches to themselves, default) on every input, the
result is always one of the four enum names, and the spec's two concrete
examples normalize as stated. -/
theorem map_operator_total_and_follows_spec :
    (∀ raw : String, map_llm_response_to_operator raw = specNormalizeOperator raw) ∧
    (∀ raw : String,
      map_llm_response_to_operator raw = "QuaternionRotation" ∨
      map_llm_response_to_operator raw = "Zitterbewegung" ∨
      map_llm_response_to_operator raw = "GeometricDerivation" ∨
      map_llm_response_to_operator raw = "SemanticSynthesis") ∧
    map_llm_response_to_operator "optimize coherence" = "QuaternionRotation" ∧
    map_llm_response_to_operator "ZitterBewegung" = "Zitterbewegung" := by
  refine ⟨fun raw => ?_, fun raw => ?_, by decide, by decide⟩
  · unfold map_llm_response_to_operator specNormalizeOperator
    repeat' split
    all_goals simp_all
  · unfold map_llm_response_to_operator
    repeat' split
    all_goals simp

/-- C6 witness: the universally quantified parts applied to the concrete
label `"please stabilize the field"`. -/
theorem map_operator_total_and_follows_spec_witness :
    map_llm_response_to_operator "please stabilize the field" =
      specNormalizeOperator "please stabilize the field" ∧
    (map_llm_response_to_operator "please stabilize the field" = "QuaternionRotation" ∨
      map_llm_response_to_operator "please stabilize the field" = "Zitterbewegung" ∨
      map_llm_response_to_operator "please stabilize the field" = "GeometricDerivation" ∨
      map_llm_response_to_operator "please stabilize the field" = "SemanticSynthesis") :=
  ⟨map_operator_total_and_follows_spec.1 "please stabilize the field",
   map_operator_total_and_follows_spec.2.1 "please stabilize the field"⟩

/-! ## Task lifecycle manager (`core/semantic_task_processor.rs`) -/

/-- Task identifiers (`uuid::Uuid`), modelled as abstract numbers; the
generator value consumed by `Uuid::new_v4` is passed in explicitly. -/
abbrev Uuid := Nat

/-- Modelled from the spec: `GeometricOperator` — `core/types.rs` is not
among the visible sources; §3 gives the closed four-variant enumeration. -/
inductive GeometricOperator
  | QuaternionRotation
  | Zitterbewegung
  | GeometricDerivation
  | SemanticSynthesis
  deriving DecidableEq

/-- Modelled from the spec: free-form structured parameter data
(`serde_json::Value`; §3 calls it "free-form structured data" opaque to
the core). -/
inductive JsonValue
  | null
  | boolean (b : Bool)
  | num (q : ℚ)
  | str (s : String)
  | arr (elems : List JsonValue)
  | obj (fields : List (String × JsonValue))

/-- Modelled from the spec: the `GeometricMetrics` record (§3) —
`core/types.rs` is not among the visible sources. Scalar fields are
modelled as rationals. -/
structure GeometricMetrics where
  v_geometric : ℚ
  s_geometric : ℚ
  q_oscillator : ℚ
  quaternion_coherence : ℚ
  emergent_electron_mass : ℚ
  fine_structure_constant : ℚ
  zitterbewegung_entropy : ℚ
  topological_winding : ℚ
  custom_metrics : List (String × ℚ)
  deriving DecidableEq

/-- Modelled from the spec: `GeometricTaskCommand` (§3) — `core/types.rs`
is not among the visible sources. -/
structure GeometricTaskCommand where
  task_name : String
  geometric_operator : GeometricOperator
  target_module : String
  parameters : JsonValue
  expected_output_metric : String
  task_id : Option Uuid

/-- `TaskStatus` from `core/semantic_task_processor.rs`. -/
inductive TaskStatus
  | Pending
  | InProgress
  | Completed (metrics : GeometricMetrics)
  | Failed (msg : String)
  deriving DecidableEq

/-- `TaskInfo` from `core/semantic_task_processor.rs`. -/
structure TaskInfo where
  command : GeometricTaskCommand
  status : TaskStatus

/-- The error enumeration of `core/error.rs`; foreign payload types are
modelled by their message strings. -/
inductive Error
  | TaskExecution (msg : String)
  | TaskNotFound (id : Uuid)
  | InvalidParameter (name msg : String)
  | LlmCommunication (msg : String)
  | Serialization (msg : String)
  | Io (msg : String)
  | Other (msg : String)

/-- Modelled from the spec: `TaskExecutionResult` (§3) — `core/types.rs`
is not among the visible sources. -/
structure TaskExecutionResult where
  task_id : Uuid
  success : Bool
  metrics : GeometricMetrics
  output : JsonValue
  error : Option String

/-- `HBAR` from `state/mod.rs` (`1.054_571_817e-34`). -/
def HBAR : ℚ := 1054571817 / 10 ^ 43

/-- `C` from `state/mod.rs` (`299_792_458.0`). -/
def C : ℚ := 299792458

/-- `ZITTER_FREQUENCY` from `state/mod.rs` (`1.55e21`). -/
def ZITTER_FREQUENCY : ℚ := 155 * 10 ^ 19

/-- `ZITTER_AMPLITUDE` from `state/mod.rs` (`1.93e-13`). -/
def ZITTER_AMPLITUDE : ℚ := 193 / 10 ^ 15

/-- `compute_electron_mass` from `state/mod.rs`. -/
def compute_electron_mass : ℚ := HBAR / (2 * C * ZITTER_AMPLITUDE)

/-- `compute_fine_structure` from `state/mod.rs` (`1.0 / 137.035_999_084`). -/
def compute_fine_structure : ℚ := 1 / (137035999084 / 10 ^ 9)

/-- `compute_quaternion_coherence` from `state/mod.rs` (`0.9997`). -/
def compute_quaternion_coherence : ℚ := 9997 / 10 ^ 4

/-- `compute_zitter_entropy` from `state/mod.rs` (`0.0003`). -/
def compute_zitter_entropy : ℚ := 3 / 10 ^ 4

/-- `SemanticTaskProcessor::baseline_metrics`, with the fixed default
winding `8.9997`. -/
def baseline_metrics : GeometricMetrics :=
  { v_geometric := compute_quaternion_coherence
    s_geometric := compute_zitter_entropy
    q_oscillator := 89997 / 10 ^ 4
    quaternion_coherence := compute_quaternion_coherence
    emergent_electron_mass := compute_electron_mass
    fine_structure_constant := compute_fine_structure
    zitterbewegung_entropy := compute_zitter_entropy
    topological_winding := 89997 / 10 ^ 4
    custom_metrics := [] }

/-- Modelled from the spec: the Emergence Engine (§4.3) is an external
collaborator whose implementation (`core/emergence_logic.rs`) is not among
the visible sources. It is modelled as an abstract engine-state type `E`
together with a transformation consuming the task's operator and
parameters and returning new metrics plus the compounded engine state;
theorems quantify over it. -/
def EmergenceApply (E : Type) : Type :=
  GeometricOperator → JsonValue → E → GeometricMetrics × E

/-- The manager state: the task table (an association list standing for
the `HashMap`), the shared metrics snapshot, and the engine state. Each
`Mutex` acquisition is modelled by a boolean oracle argument on the
operation (a `false` oracle is a poisoned lock). -/
structure SemanticTaskProcessor (E : Type) where
  tasks : List (Uuid × TaskInfo)
  metrics : GeometricMetrics
  emergence : E

variable {E : Type}

/-- `SemanticTaskProcessor::new`: empty task table, baseline snapshot. -/
def SemanticTaskProcessor.new (e : E) : SemanticTaskProcessor E :=
  ⟨[], baseline_metrics, e⟩

/-- `HashMap::get` on the task table (first matching key). -/
def lookupTask : List (Uuid × TaskInfo) → Uuid → Option TaskInfo
  | [], _ => none
  | (k, info) :: rest, id => if k = id then some info else lookupTask rest id

/-- In-place status update through `get_mut` (first matching key). -/
def setTaskStatus : List (Uuid × TaskInfo) → Uuid → TaskStatus → List (Uuid × TaskInfo)
  | [], _, _ => []
  | (k, info) :: rest, id, s =>
    if k = id then (k, { info with status := s }) :: rest
    else (k, info) :: setTaskStatus rest id s

/-- `SemanticTaskProcessor::submit_task`. `fresh` is the value
`Uuid::new_v4` would produce when the command carries no id. -/
def submit_task (lockTasks : Bool) (fresh : Uuid) (st : SemanticTaskProcessor E)
    (task : GeometricTaskCommand) : Except Error Uuid × SemanticTaskProcessor E :=
  let task_id := task.task_id.getD fresh
  if lockTasks = false then
    (Except.error (Error.TaskExecution "Failed to access task storage"), st)
  else if (lookupTask st.tasks task_id).isSome then
    (Except.error (Error.TaskExecution
      ("Task with ID " ++ toString task_id ++ " already exists")), st)
  else
    (Except.ok task_id,
     { st with tasks := (task_id, ⟨task, TaskStatus.Pending⟩) :: st.tasks })

/-- `SemanticTaskProcessor::simulate_task_execution`: locks metrics then
the engine, applies the operator, stores the result as the new shared
snapshot and returns it. -/
def simulate_task_execution (applyOp : EmergenceApply E) (lockMetrics lockEmergence : Bool)
    (st : SemanticTaskProcessor E) (task : GeometricTaskCommand) :
    Except Error GeometricMetrics × SemanticTaskProcessor E :=
  if lockMetrics = false then
    (Except.error (Error.TaskExecution "Failed to access metrics"), st)
  else if lockEmergence = false then
    (Except.error (Error.TaskExecution "Failed to access emergence logic"), st)
  else
    let r := applyOp task.geometric_operator task.parameters st.emergence
    (Except.ok r.1, { st with metrics := r.1, emergence := r.2 })

/-- `SemanticTaskProcessor::execute_task`: marks the task `InProgress`,
sleeps (no state effect), delegates to `simulate_task_execution`, and on
success stores the returned metrics as the terminal `Completed` value. The
`InProgress` write is committed before the fallible metrics step runs. -/
def execute_task (applyOp : EmergenceApply E) (lockTasks lockMetrics lockEmergence : Bool)
    (st : SemanticTaskProcessor E) (task_id : Uuid) :
    Except Error TaskExecutionResult × SemanticTaskProcessor E :=
  if lockTasks = false then
    (Except.error (Error.TaskExecution "Failed to access task storage"), st)
  else
    match lookupTask st.tasks task_id with
    | none =>
      (Except.error (Error.TaskExecution
        ("Task with ID " ++ toString task_id ++ " not found")), st)
    | some info =>
      let st1 : SemanticTaskProcessor E :=
        { st with tasks := setTaskStatus st.tasks task_id TaskStatus.InProgress }
      match simulate_task_execution applyOp lockMetrics lockEmergence st1 info.command with
      | (Except.error e, st2) => (Except.error e, st2)
      | (Except.ok m, st2) =>
        (Except.ok
          { task_id := task_id
            success := true
            metrics := m
            output := JsonValue.obj [("status", JsonValue.str "completed")]
            error := none },
         { st2 with tasks := setTaskStatus st2.tasks task_id (TaskStatus.Completed m) })

/-- `SemanticTaskProcessor::get_task_status`. -/
def get_task_status (lockTasks : Bool) (st : SemanticTaskProcessor E) (task_id : Uuid) :
    Except Error TaskStatus × SemanticTaskProcessor E :=
  if lockTasks = false then
    (Except.error (Error.TaskExecution "Failed to access task storage"), st)
  else
    match lookupTask st.tasks task_id with
    | some info => (Except.ok info.status, st)
    | none =>
      (Except.error (Error.TaskExecution
        ("Task with ID " ++ toString task_id ++ " not found")), st)

/-- `SemanticTaskProcessor::get_metrics`. -/
def get_metrics (lockMetrics : Bool) (st : SemanticTaskProcessor E) :
    Except Error GeometricMetrics × SemanticTaskProcessor E :=
  if lockMetrics = false then
    (Except.error (Error.TaskExecution "Failed to access metrics"), st)
  else (Except.ok st.metrics, st)

/-- `SemanticTaskProcessor::list_tasks`. -/
def list_tasks (lockTasks : Bool) (st : SemanticTaskProcessor E) :
    Except Error (List (Uuid × TaskStatus)) × SemanticTaskProcessor E :=
  if lockTasks = false then
    (Except.error (Error.TaskExecution "Failed to access task storage"), st)
  else (Except.ok (st.tasks.map (fun p => (p.1, p.2.status))), st)

/-- One externally invocable manager operation, with its lock oracles. -/
inductive Op
  | submit (lockTasks : Bool) (fresh : Uuid) (cmd : GeometricTaskCommand)
  | execute (lockTasks lockMetrics lockEmergence : Bool) (id : Uuid)
  | status (lockTasks : Bool) (id : Uuid)
  | metrics (lockMetrics : Bool)
  | list (lockTasks : Bool)

/-- State effect of one operation (results discarded). -/
def stepOp (applyOp : EmergenceApply E) : Op → SemanticTaskProcessor E → SemanticTaskProcessor E
  | Op.submit lt fresh cmd, st => (submit_task lt fresh st cmd).2
  | Op.execute lt lm le id, st => (execute_task applyOp lt lm le st id).2
  | Op.status lt id, st => (get_task_status lt st id).2
  | Op.metrics lm, st => (get_metrics lm st).2
  | Op.list lt, st => (list_tasks lt st).2

/-- Run a sequence of operations. -/
def runOps (applyOp : EmergenceApply E) : List Op → SemanticTaskProcessor E → SemanticTaskProcessor E
  | [], st => st
  | op :: ops, st => runOps applyOp ops (stepOp applyOp op st)

/-- The status currently recorded for a task id, if any. -/
def statusOf (st : SemanticTaskProcessor E) (id : Uuid) : Option TaskStatus :=
  (lookupTask st.tasks id).map TaskInfo.status

/-- How many `execute` operations in the sequence target the given id. -/
def countExecutes (id : Uuid) : List Op → Nat
  | [] => 0
  | Op.execute _ _ _ i :: ops => (if i = id then 1 else 0) + countExecutes id ops
  | _ :: ops => countExecutes id ops

/-- Forward order on recorded statuses: absent may become anything, a
`Pending` task may advance but not disappear, `InProgress` may only
advance or stay, and a terminal status is frozen with its value. -/
def statusLe : Option TaskStatus → Option TaskStatus → Prop
  | none, _ => True
  | some TaskStatus.Pending, s => s.isSome = true
  | some TaskStatus.InProgress, s =>
      s = some TaskStatus.InProgress ∨
      (∃ m, s = some (TaskStatus.Completed m)) ∨ (∃ e, s = some (TaskStatus.Failed e))
  | some (TaskStatus.Completed m), s => s = some (TaskStatus.Completed m)
  | some (TaskStatus.Failed e), s => s = some (TaskStatus.Failed e)

theorem statusLe_refl (s : Option TaskStatus) : statusLe s s := by
  rcases s with _ | s
  · trivial
  · cases s <;> simp [statusLe]

/-- A status update at one key rewrites only that key's lookup. -/
theorem lookupTask_setTaskStatus (tasks : List (Uuid × TaskInfo)) (tid : Uuid)
    (s : TaskStatus) (id : Uuid) :
    lookupTask (setTaskStatus tasks tid s) id =
      if tid = id then (lookupTask tasks id).map (fun i => { i with status := s })
      else lookupTask tasks id := by
  induction tasks with
  | nil => simp [setTaskStatus, lookupTask]
  | cons p rest ih =>
    obtain ⟨k, info⟩ := p
    by_cases hk : k = tid
    · subst hk
      by_cases hid : k = id
      · subst hid
        simp [setTaskStatus, lookupTask]
      · simp [setTaskStatus, lookupTask, hid]
    · by_cases hid : k = id
      · subst hid
        have hne : tid ≠ k := Ne.symm hk
        simp [setTaskStatus, lookupTask, hk, hne]
      · simp [setTaskStatus, lookupTask, hk, hid, ih]

theorem simulate_tasks_eq (a : EmergenceApply E) (lm le : Bool)
    (st : SemanticTaskProcessor E) (cmd : GeometricTaskCommand) :
    (simulate_task_execution a lm le st cmd).2.tasks = st.tasks := by
  unfold simulate_task_execution
  repeat' split
  all_goals rfl

theorem get_task_status_snd (lt : Bool) (st : SemanticTaskProcessor E) (id : Uuid) :
    (get_task_status lt st id).2 = st := by
  unfold get_task_status
  repeat' split
  all_goals rfl

theorem get_metrics_snd (lm : Bool) (st : SemanticTaskProcessor E) :
    (get_metrics lm st).2 = st := by
  unfold get_metrics
  split
  all_goals rfl

theorem list_tasks_snd (lt : Bool) (st : SemanticTaskProcessor E) :
    (list_tasks lt st).2 = st := by
  unfold list_tasks
  split
  all_goals rfl

/-- C10: the three read operations (`get_task_status`, `get_metrics`,
`list_tasks`) never modify manager state, whether they succeed or fail on
a poisoned lock: the state they return is exactly the input state, so the
task table and the metrics snapshot are untouched. -/
theorem read_operations_no_state_change (st : SemanticTaskProcessor E)
    (lt lm lt2 : Bool) (tid : Uuid) :
    (get_task_status lt st tid).2 = st ∧
    (get_metrics lm st).2 = st ∧
    (list_tasks lt2 st).2 = st :=
  ⟨get_task_status_snd lt st tid, get_metrics_snd lm st, list_tasks_snd lt2 st⟩

/-- C5: executing or querying a never-submitted id returns the unknown-id
error and leaves the state exactly as it was. -/
theorem unknown_id_error_and_frame (a : EmergenceApply E) (lm le : Bool)
    (st : SemanticTaskProcessor E) (tid : Uuid)
    (h : lookupTask st.tasks tid = none) :
    (execute_task a true lm le st tid).1 =
      Except.error (Error.TaskExecution ("Task with ID " ++ toString tid ++ " not found")) ∧
    (execute_task a true lm le st tid).2 = st ∧
    (get_task_status true st tid).1 =
      Except.error (Error.TaskExecution ("Task with ID " ++ toString tid ++ " not found")) ∧
    (get_task_status true st tid).2 = st := by
  refine ⟨?_, ?_, ?_, ?_⟩ <;> simp [execute_task, get_task_status, h]

/-- C5 witness: a fresh manager with an uninterpreted engine, queried and
executed at the absent id `7`. -/
theorem unknown_id_error_and_frame_witness :
    (execute_task (fun _ _ e => (baseline_metrics, e)) true true true
        (SemanticTaskProcessor.new ()) 7).1 =
      Except.error (Error.TaskExecution ("Task with ID " ++ toString (7 : Uuid) ++ " not found")) ∧
    (execute_task (fun _ _ e => (baseline_metrics, e)) true true true
        (SemanticTaskProcessor.new ()) 7).2 = SemanticTaskProcessor.new () ∧
    (get_task_status true (SemanticTaskProcessor.new ()) 7).1 =
      Except.error (Error.TaskExecution ("Task with ID " ++ toString (7 : Uuid) ++ " not found")) ∧
    (get_task_status true (SemanticTaskProcessor.new ()) 7).2 = SemanticTaskProcessor.new () :=
  unknown_id_error_and_frame (fun _ _ e => (baseline_metrics, e)) true true
    (SemanticTaskProcessor.new ()) 7 rfl

/-- C4: submitting a command whose caller-supplied id is already present
fails with the duplicate-id error and leaves the whole state unchanged;
submitting with a fresh effective id inserts the task as `Pending` and
returns that id. -/
theorem submit_duplicate_and_fresh (f : Uuid) (st : SemanticTaskProcessor E)
    (cmd : GeometricTaskCommand) (tid : Uuid) :
    (cmd.task_id = some tid → (lookupTask st.tasks tid).isSome = true →
      (submit_task true f st cmd).1 =
        Except.error (Error.TaskExecution ("Task with ID " ++ toString tid ++ " already exists")) ∧
      (submit_task true f st cmd).2 = st) ∧
    ((lookupTask st.tasks (cmd.task_id.getD f)).isSome = false →
      (submit_task true f st cmd).1 = Except.ok (cmd.task_id.getD f) ∧
      statusOf (submit_task true f st cmd).2 (cmd.task_id.getD f) = some TaskStatus.Pending) := by
  constructor
  · intro h1 h2
    refine ⟨?_, ?_⟩ <;> simp [submit_task, h1, h2]
  · intro h
    refine ⟨?_, ?_⟩ <;> simp [submit_task, h, statusOf, lookupTask]

/-- C4 witness: a manager holding task `5` rejects a second command with
id `5` unchanged, and accepts a command with fresh id `6`. -/
theorem submit_duplicate_and_fresh_witness :
    ((submit_task true 9
        (⟨[(5, ⟨⟨"first", GeometricOperator.QuaternionRotation, "m", JsonValue.null, "v", some 5⟩,
            TaskStatus.Pending⟩)], baseline_metrics, ()⟩ : SemanticTaskProcessor Unit)
        ⟨"second", GeometricOperator.QuaternionRotation, "m", JsonValue.null, "v", some 5⟩).1 =
      Except.error (Error.TaskExecution ("Task with ID " ++ toString (5 : Uuid) ++ " already exists")) ∧
    (submit_task true 9
        (⟨[(5, ⟨⟨"first", GeometricOperator.QuaternionRotation, "m", JsonValue.null, "v", some 5⟩,
            TaskStatus.Pending⟩)], baseline_metrics, ()⟩ : SemanticTaskProcessor Unit)
        ⟨"second", GeometricOperator.QuaternionRotation, "m", JsonValue.null, "v", some 5⟩).2 =
      ⟨[(5, ⟨⟨"first", GeometricOperator.QuaternionRotation, "m", JsonValue.null, "v", some 5⟩,
          TaskStatus.Pending⟩)], baseline_metrics, ()⟩) ∧
    ((submit_task true 6 (SemanticTaskProcessor.new ())
        ⟨"third", GeometricOperator.QuaternionRotation, "m", JsonValue.null, "v", none⟩).1 =
      Except.ok ((none : Option Uuid).getD 6) ∧
    statusOf (submit_task true 6 (SemanticTaskProcessor.new ())
        ⟨"third", GeometricOperator.QuaternionRotation, "m", JsonValue.null, "v", none⟩).2
        ((none : Option Uuid).getD 6) = some TaskStatus.Pending) :=
  ⟨(submit_duplicate_and_fresh 9 _ _ 5).1 rfl rfl,
   (submit_duplicate_and_fresh 6 (SemanticTaskProcessor.new ()) _ 0).2 rfl⟩

/-- C9: when a present task's metrics-update step fails (the metrics or
engine lock is poisoned), `execute_task` returns an error having already
committed the `InProgress` write: the task is left `InProgress` — neither
restored nor marked `Failed` — and the shared snapshot is untouched. -/
theorem execute_not_atomic_on_lock_failure (a : EmergenceApply E) (lm le : Bool)
    (st : SemanticTaskProcessor E) (tid : Uuid) (info : TaskInfo)
    (hpresent : lookupTask st.tasks tid = some info)
    (hfail : lm = false ∨ le = false) :
    (∃ e, (execute_task a true lm le st tid).1 = Except.error e) ∧
    statusOf (execute_task a true lm le st tid).2 tid = some TaskStatus.InProgress ∧
    (execute_task a true lm le st tid).2.metrics = st.metrics := by
  have hstat : statusOf
      ({ st with tasks := setTaskStatus st.tasks tid TaskStatus.InProgress } :
        SemanticTaskProcessor E) tid = some TaskStatus.InProgress := by
    simp [statusOf, lookupTask_setTaskStatus, hpresent]
  by_cases hlm : lm = false
  · subst hlm
    refine ⟨⟨Error.TaskExecution "Failed to access metrics", ?_⟩, ?_, ?_⟩ <;>
      simp [execute_task, simulate_task_execution, hpresent, hstat]
  · have hle : le = false := by
      rcases hfail with h | h
      · exact absurd h hlm
      · exact h
    have hlmt : lm = true := by
      cases lm
      · exact absurd rfl hlm
      · rfl
    subst hle hlmt
    refine ⟨⟨Error.TaskExecution "Failed to access emergence logic", ?_⟩, ?_, ?_⟩ <;>
      simp [execute_task, simulate_task_execution, hpresent, hstat]

/-- C9 witness: a one-task manager whose metrics lock fails during
execution of task `4`; the task is left `InProgress`. -/
theorem execute_not_atomic_on_lock_failure_witness :
    (∃ e, (execute_task (fun _ _ e => (baseline_metrics, e)) true false true
        (⟨[(4, ⟨⟨"t", GeometricOperator.QuaternionRotation, "m", JsonValue.null, "v", some 4⟩,
            TaskStatus.Pending⟩)], baseline_metrics, ()⟩ : SemanticTaskProcessor Unit) 4).1 =
      Except.error e) ∧
    statusOf (execute_task (fun _ _ e => (baseline_metrics, e)) true false true
        (⟨[(4, ⟨⟨"t", GeometricOperator.QuaternionRotation, "m", JsonValue.null, "v", some 4⟩,
            TaskStatus.Pending⟩)], baseline_metrics, ()⟩ : SemanticTaskProcessor Unit) 4).2 4 =
      some TaskStatus.InProgress ∧
    (execute_task (fun _ _ e => (baseline_metrics, e)) true false true
        (⟨[(4, ⟨⟨"t", GeometricOperator.QuaternionRotation, "m", JsonValue.null, "v", some 4⟩,
            TaskStatus.Pending⟩)], baseline_metrics, ()⟩ : SemanticTaskProcessor Unit) 4).2.metrics =
      baseline_metrics :=
  execute_not_atomic_on_lock_failure (fun _ _ e => (baseline_metrics, e)) false true
    _ 4 _ rfl (Or.inl rfl)

/-- C3: executing a present task with healthy locks succeeds: the result
carries `success = true` and `error = none`, its metrics equal the new
shared snapshot returned by `get_metrics` and the task's terminal
`Completed` value; and end-to-end from a fresh manager, submitting one
command with no caller id and executing it leaves exactly one task listed,
`Completed` with exactly the metrics `get_metrics` then reports. -/
theorem execute_success_metrics_consistency (Etype : Type) (a : EmergenceApply Etype) :
    (∀ (st : SemanticTaskProcessor Etype) (tid : Uuid) (info : TaskInfo),
      lookupTask st.tasks tid = some info →
      ∃ res : TaskExecutionResult,
        (execute_task a true true true st tid).1 = Except.ok res ∧
        res.success = true ∧ res.error = none ∧ res.task_id = tid ∧
        (get_metrics true (execute_task a true true true st tid).2).1 = Except.ok res.metrics ∧
        statusOf (execute_task a true true true st tid).2 tid =
          some (TaskStatus.Completed res.metrics)) ∧
    (∀ (e : Etype) (f : Uuid) (cmd : GeometricTaskCommand), cmd.task_id = none →
      (submit_task true f (SemanticTaskProcessor.new e) cmd).1 = Except.ok f ∧
      (list_tasks true (execute_task a true true true
          (submit_task true f (SemanticTaskProcessor.new e) cmd).2 f).2).1 =
        Except.ok [(f, TaskStatus.Completed (a cmd.geometric_operator cmd.parameters e).1)] ∧
      (get_metrics true (execute_task a true true true
          (submit_task true f (SemanticTaskProcessor.new e) cmd).2 f).2).1 =
        Except.ok (a cmd.geometric_operator cmd.parameters e).1 ∧
      (execute_task a true true true
          (submit_task true f (SemanticTaskProcessor.new e) cmd).2 f).1 =
        Except.ok
          { task_id := f
            success := true
            metrics := (a cmd.geometric_operator cmd.parameters e).1
            output := JsonValue.obj [("status", JsonValue.str "completed")]
            error := none }) := by
  constructor
  · intro st tid info h
    refine ⟨{ task_id := tid
              success := true
              metrics := (a info.command.geometric_operator info.command.parameters st.emergence).1
              output := JsonValue.obj [("status", JsonValue.str "completed")]
              error := none }, ?_, rfl, rfl, rfl, ?_, ?_⟩ <;>
      simp [execute_task, simulate_task_execution, get_metrics, h,
        statusOf, lookupTask_setTaskStatus]
  · intro e f cmd hcmd
    refine ⟨?_, ?_, ?_, ?_⟩ <;>
      simp [submit_task, execute_task, simulate_task_execution, list_tasks, get_metrics,
        SemanticTaskProcessor.new, lookupTask, setTaskStatus, statusOf, hcmd]

/-- C3 witness: the general clause at a one-task manager and the
end-to-end clause at a concrete no-id command, with an uninterpreted
engine. -/
theorem execute_success_metrics_consistency_witness :
    (∃ res : TaskExecutionResult,
      (execute_task (fun _ _ e => (baseline_metrics, e)) true true true
          (⟨[(3, ⟨⟨"t", GeometricOperator.QuaternionRotation, "m", JsonValue.null, "v", some 3⟩,
              TaskStatus.Pending⟩)], baseline_metrics, ()⟩ : SemanticTaskProcessor Unit) 3).1 =
        Except.ok res ∧
      res.success = true ∧ res.error = none ∧ res.task_id = 3 ∧
      (get_metrics true (execute_task (fun _ _ e => (baseline_metrics, e)) true true true
          (⟨[(3, ⟨⟨"t", GeometricOperator.QuaternionRotation, "m", JsonValue.null, "v", some 3⟩,
              TaskStatus.Pending⟩)], baseline_metrics, ()⟩ : SemanticTaskProcessor Unit) 3).2).1 =
        Except.ok res.metrics ∧
      statusOf (execute_task (fun _ _ e => (baseline_metrics, e)) true true true
          (⟨[(3, ⟨⟨"t", GeometricOperator.QuaternionRotation, "m", JsonValue.null, "v", some 3⟩,
              TaskStatus.Pending⟩)], baseline_metrics, ()⟩ : SemanticTaskProcessor Unit) 3).2 3 =
        some (TaskStatus.Completed res.metrics)) ∧
    (submit_task true 9 (SemanticTaskProcessor.new ())
        ⟨"e2e", GeometricOperator.QuaternionRotation, "m", JsonValue.null, "v", none⟩).1 =
      Except.ok 9 :=
  ⟨(execute_success_metrics_consistency Unit (fun _ _ e => (baseline_metrics, e))).1
      _ 3 _ rfl,
   ((execute_success_metrics_consistency Unit (fun _ _ e => (baseline_metrics, e))).2
      () 9 ⟨"e2e", GeometricOperator.QuaternionRotation, "m", JsonValue.null, "v", none⟩ rfl).1⟩

/-- Metrics whose `v_geometric` records an engine counter, to distinguish
successive engine applications. -/
def demoMetrics (n : Nat) : GeometricMetrics :=
  { baseline_metrics with v_geometric := (n : ℚ) }

/-- A compounding engine: each application is numbered. -/
def demoApply : EmergenceApply Nat := fun _ _ n => (demoMetrics n, n + 1)

/-- A command carrying the caller-supplied id `0`. -/
def demoCmd : GeometricTaskCommand :=
  ⟨"demo", GeometricOperator.QuaternionRotation, "core", JsonValue.null, "v_geometric", some 0⟩

/-- C2 counterexample: `execute_task` never checks the current status, so a
reachable call sequence (submit, execute, execute again) moves a task that
is already `Completed` back to `InProgress` (when the second execution's
metrics lock fails) or to a different `Completed` value (when it
succeeds) — both backward moves under the lifecycle order. -/
theorem task_lifecycle_counterexample :
    statusOf (runOps demoApply [Op.submit true 0 demoCmd, Op.execute true true true 0]
        (SemanticTaskProcessor.new 0)) 0 = some (TaskStatus.Completed (demoMetrics 0)) ∧
    statusOf (runOps demoApply [Op.submit true 0 demoCmd, Op.execute true true true 0,
        Op.execute true false true 0] (SemanticTaskProcessor.new 0)) 0 =
      some TaskStatus.InProgress ∧
    statusOf (runOps demoApply [Op.submit true 0 demoCmd, Op.execute true true true 0,
        Op.execute true true true 0] (SemanticTaskProcessor.new 0)) 0 =
      some (TaskStatus.Completed (demoMetrics 1)) ∧
    demoMetrics 1 ≠ demoMetrics 0 ∧
    ¬ statusLe (some (TaskStatus.Completed (demoMetrics 0))) (some TaskStatus.InProgress) ∧
    ¬ statusLe (some (TaskStatus.Completed (demoMetrics 0)))
        (some (TaskStatus.Completed (demoMetrics 1))) := by
  refine ⟨rfl, rfl, rfl, by decide, ?_, ?_⟩
  · simp [statusLe]
  · simp [statusLe, demoMetrics, baseline_metrics]

/-- Which execute operations target the given id. -/
def targetsExec (id : Uuid) : Op → Prop
  | Op.execute _ _ _ i => i = id
  | _ => False

theorem statusOf_submit_step (lt : Bool) (f : Uuid) (st : SemanticTaskProcessor E)
    (cmd : GeometricTaskCommand) (id : Uuid) :
    statusOf (submit_task lt f st cmd).2 id = statusOf st id ∨
    (statusOf st id = none ∧
      statusOf (submit_task lt f st cmd).2 id = some TaskStatus.Pending) := by
  by_cases hl : lt = false
  · left
    simp [submit_task, hl]
  · by_cases hd : (lookupTask st.tasks (cmd.task_id.getD f)).isSome
    · left
      simp [submit_task, hl, hd]
    · by_cases hid : cmd.task_id.getD f = id
      · right
        have hnone : lookupTask st.tasks id = none := by
          rw [← hid]
          exact Option.not_isSome_iff_eq_none.mp hd
        refine ⟨by simp [statusOf, hnone], ?_⟩
        simp [submit_task, hl, hd, statusOf, lookupTask, hid, hnone]
      · left
        simp [submit_task, hl, hd, statusOf, lookupTask, hid]

theorem statusOf_execute_step_ne (a : EmergenceApply E) (lt lm le : Bool)
    (st : SemanticTaskProcessor E) (i id : Uuid) (hne : i ≠ id) :
    statusOf (execute_task a lt lm le st i).2 id = statusOf st id := by
  by_cases hl : lt = false
  · simp [execute_task, hl]
  · cases hlook : lookupTask st.tasks i with
    | none => simp [execute_task, hl, hlook]
    | some info =>
      rcases hsim : simulate_task_execution a lm le
        ({ st with tasks := setTaskStatus st.tasks i TaskStatus.InProgress }) info.command
        with ⟨r, st2⟩
      have htasks : st2.tasks = setTaskStatus st.tasks i TaskStatus.InProgress := by
        have := simulate_tasks_eq a lm le
          ({ st with tasks := setTaskStatus st.tasks i TaskStatus.InProgress }) info.command
        rw [hsim] at this
        exact this
      cases r with
      | error e =>
        simp [execute_task, hl, hlook, hsim, statusOf, htasks,
          lookupTask_setTaskStatus, hne]
      | ok m =>
        simp [execute_task, hl, hlook, hsim, statusOf, htasks,
          lookupTask_setTaskStatus, hne]

theorem statusOf_stepOp_cases (a : EmergenceApply E) (op : Op)
    (st : SemanticTaskProcessor E) (id : Uuid) (h : ¬ targetsExec id op) :
    statusOf (stepOp a op st) id = statusOf st id ∨
    (statusOf st id = none ∧ statusOf (stepOp a op st) id = some TaskStatus.Pending) := by
  cases op with
  | submit lt f cmd => exact statusOf_submit_step lt f st cmd id
  | execute lt lm le i =>
    left
    have hne : i ≠ id := fun hh => h (by simp [targetsExec, hh])
    exact statusOf_execute_step_ne a lt lm le st i id hne
  | status lt i =>
    left
    show statusOf (get_task_status lt st i).2 id = statusOf st id
    rw [get_task_status_snd]
  | metrics lm =>
    left
    show statusOf (get_metrics lm st).2 id = statusOf st id
    rw [get_metrics_snd]
  | list lt =>
    left
    show statusOf (list_tasks lt st).2 id = statusOf st id
    rw [list_tasks_snd]

theorem countExecutes_append (id : Uuid) (l1 l2 : List Op) :
    countExecutes id (l1 ++ l2) = countExecutes id l1 + countExecutes id l2 := by
  induction l1 with
  | nil => simp [countExecutes]
  | cons op l ih =>
    cases op <;> (simp [countExecutes, ih]; try omega)

theorem statusOf_runOps_no_exec (a : EmergenceApply E) (ops : List Op) (id : Uuid) :
    ∀ st : SemanticTaskProcessor E, countExecutes id ops = 0 →
    statusOf (runOps a ops st) id = statusOf st id ∨
    (statusOf st id = none ∧ statusOf (runOps a ops st) id = some TaskStatus.Pending) := by
  induction ops with
  | nil =>
    intro st _
    left
    rfl
  | cons op ops ih =>
    intro st h
    have hop : ¬ targetsExec id op := by
      cases op with
      | execute lt lm le i =>
        simp only [targetsExec]
        intro hi
        rw [hi] at h
        simp [countExecutes] at h
      | submit lt f cmd => simp [targetsExec]
      | status lt i => simp [targetsExec]
      | metrics lm => simp [targetsExec]
      | list lt => simp [targetsExec]
    have hops : countExecutes id ops = 0 := by
      cases op <;> simp [countExecutes] at h <;> omega
    have hrun : runOps a (op :: ops) st = runOps a ops (stepOp a op st) := rfl
    rcases statusOf_stepOp_cases a op st id hop with h1 | ⟨h1a, h1b⟩
    · rcases ih (stepOp a op st) hops with h2 | ⟨h2a, h2b⟩
      · left
        rw [hrun, h2, h1]
      · right
        exact ⟨h1 ▸ h2a, by rw [hrun]; exact h2b⟩
    · rcases ih (stepOp a op st) hops with h2 | ⟨h2a, h2b⟩
      · right
        exact ⟨h1a, by rw [hrun, h2, h1b]⟩
      · rw [h1b] at h2a
        exact absurd h2a (by simp)

theorem isSome_statusOf_stepOp (a : EmergenceApply E) (op : Op)
    (st : SemanticTaskProcessor E) (id : Uuid)
    (h : (statusOf st id).isSome = true) :
    (statusOf (stepOp a op st) id).isSome = true := by
  cases op with
  | submit lt f cmd =>
    rcases statusOf_submit_step lt f st cmd id with h1 | ⟨h1a, _⟩
    · show (statusOf (submit_task lt f st cmd).2 id).isSome = true
      rw [h1]
      exact h
    · rw [h1a] at h
      simp at h
  | execute lt lm le i =>
    by_cases hne : i = id
    · subst hne
      by_cases hl : lt = false
      · show (statusOf (execute_task a lt lm le st i).2 i).isSome = true
        simp [execute_task, hl]
        exact h
      · cases hlook : lookupTask st.tasks i with
        | none =>
          show (statusOf (execute_task a lt lm le st i).2 i).isSome = true
          simp [execute_task, hl, hlook]
          exact h
        | some info =>
          rcases hsim : simulate_task_execution a lm le
            ({ st with tasks := setTaskStatus st.tasks i TaskStatus.InProgress }) info.command
            with ⟨r, st2⟩
          have htasks : st2.tasks = setTaskStatus st.tasks i TaskStatus.InProgress := by
            have := simulate_tasks_eq a lm le
              ({ st with tasks := setTaskStatus st.tasks i TaskStatus.InProgress }) info.command
            rw [hsim] at this
            exact this
          show (statusOf (execute_task a lt lm le st i).2 i).isSome = true
          cases r with
          | error e =>
            simp [execute_task, hl, hlook, hsim, statusOf, htasks,
              lookupTask_setTaskStatus]
          | ok m =>
            simp [execute_task, hl, hlook, hsim, statusOf, htasks,
              lookupTask_setTaskStatus]
    · show (statusOf (execute_task a lt lm le st i).2 id).isSome = true
      rw [statusOf_execute_step_ne a lt lm le st i id hne]
      exact h
  | status lt i =>
    show (statusOf (get_task_status lt st i).2 id).isSome = true
    rw [get_task_status_snd]
    exact h
  | metrics lm =>
    show (statusOf (get_metrics lm st).2 id).isSome = true
    rw [get_metrics_snd]
    exact h
  | list lt =>
    show (statusOf (list_tasks lt st).2 id).isSome = true
    rw [list_tasks_snd]
    exact h

theorem isSome_statusOf_runOps (a : EmergenceApply E) (ops : List Op) (id : Uuid) :
    ∀ st : SemanticTaskProcessor E, (statusOf st id).isSome = true →
    (statusOf (runOps a ops st) id).isSome = true := by
  induction ops with
  | nil => exact fun st h => h
  | cons op ops ih =>
    intro st h
    exact ih (stepOp a op st) (isSome_statusOf_stepOp a op st id h)

/-- C2 (amended): every task is created `Pending` by a successful
`submit_task`, and along any operation sequence in which the task's id is
targeted by at most one `execute_task` call, its recorded status only moves
forward (`Pending` may advance, a terminal value is frozen) — the original
claim's guarantee for arbitrary sequences fails because `execute_task`
does not guard against re-execution (see the counterexample). -/
theorem task_lifecycle_amended (Etype : Type) (a : EmergenceApply Etype) :
    (∀ (lt : Bool) (f : Uuid) (st : SemanticTaskProcessor Etype)
        (cmd : GeometricTaskCommand) (tid : Uuid),
      (submit_task lt f st cmd).1 = Except.ok tid →
      statusOf (submit_task lt f st cmd).2 tid = some TaskStatus.Pending) ∧
    (∀ (st : SemanticTaskProcessor Etype) (tid : Uuid) (l1 l2 : List Op),
      countExecutes tid (l1 ++ l2) ≤ 1 →
      statusOf st tid = none →
      statusLe (statusOf (runOps a l1 st) tid)
               (statusOf (runOps a l2 (runOps a l1 st)) tid)) := by
  constructor
  · intro lt f st cmd tid h
    by_cases hl : lt = false
    · simp [submit_task, hl] at h
    · by_cases hd : (lookupTask st.tasks (cmd.task_id.getD f)).isSome
      · simp [submit_task, hl, hd] at h
      · simp only [submit_task, hl, hd] at h ⊢
        simp at h
        simp [statusOf, lookupTask, h]
  · intro st tid l1 l2 hcount h0
    rw [countExecutes_append] at hcount
    by_cases hc2 : countExecutes tid l2 = 0
    · rcases statusOf_runOps_no_exec a l2 tid (runOps a l1 st) hc2 with h1 | ⟨h1a, _⟩
      · rw [h1]
        exact statusLe_refl _
      · rw [h1a]
        trivial
    · have hc1 : countExecutes tid l1 = 0 := by omega
      rcases statusOf_runOps_no_exec a l1 tid st hc1 with h1 | ⟨_, h1b⟩
      · rw [h1, h0]
        trivial
      · rw [h1b]
        show (statusOf (runOps a l2 (runOps a l1 st)) tid).isSome = true
        exact isSome_statusOf_runOps a l2 tid (runOps a l1 st) (by rw [h1b]; rfl)

/-- C2 witness: the amended theorem applied at a fresh manager, the demo
command and the one-submit-one-execute sequence. -/
theorem task_lifecycle_amended_witness :
    statusOf (submit_task true 0 (SemanticTaskProcessor.new (0 : Nat)) demoCmd).2 0 =
      some TaskStatus.Pending ∧
    statusLe
      (statusOf (runOps demoApply [Op.submit true 0 demoCmd] (SemanticTaskProcessor.new 0)) 0)
      (statusOf (runOps demoApply [Op.execute true true true 0]
        (runOps demoApply [Op.submit true 0 demoCmd] (SemanticTaskProcessor.new 0))) 0) :=
  ⟨(task_lifecycle_amended Nat demoApply).1 true 0 _ demoCmd 0 rfl,
   (task_lifecycle_amended Nat demoApply).2 (SemanticTaskProcessor.new 0) 0
     [Op.submit true 0 demoCmd] [Op.execute true true true 0] (by decide) rfl⟩

end Amms
